import Mathlib

/-!
Verification of the uhoo air-quality client library against its
natural-language specification.  The library's Python modules
(`uhooapi.device`, `uhooapi.client`, `uhooapi.api`, `uhooapi.errors`) are
not shipped in this source tree — only their unit tests are — so the
operations below are modelled from the specification (and pinned, where
the spec is ambiguous, by the assertions of the unit tests in
`tests/unit/`).  Numbers are modelled as exact rationals, with
round-half-to-even rounding made explicit.
-/

section
attribute [local semireducible] Rat.add Rat.sub Rat.mul Rat.inv

namespace Uhoo

/-- Floor of a rational as an integer, via floor division of the
numerator by the (positive) denominator. -/
def ratFloor (q : ℚ) : ℤ :=
  Int.fdiv q.num q.den

/-- Round a rational to the nearest integer, ties going to the even
integer (banker's rounding, the semantics of Python's `round`). -/
def roundHalfEven (q : ℚ) : ℤ :=
  let n := ratFloor q
  if q - n < 1/2 then n
  else if 1/2 < q - n then n + 1
  else if n % 2 = 0 then n else n + 1

/-- Round a rational to one decimal place with round-half-to-even
semantics, as in Python's `round(x, 1)`. -/
def round1 (q : ℚ) : ℚ :=
  (roundHalfEven (10 * q) : ℚ) / 10

/-- Arithmetic mean of a list of rationals (0 on the empty list, which
the callers below never reach). -/
def mean (xs : List ℚ) : ℚ :=
  xs.sum / xs.length

/-- Modelled from the spec: the fixed enumerated set of known
sensor-field names (external camelCase spellings), as exercised by
`tests/unit/test_device.py` and the `sample_sensor_data` fixture. -/
def SENSOR_FIELDS : List String :=
  ["virusIndex", "moldIndex", "temperature", "humidity", "pm25", "tvoc",
   "co2", "co", "airPressure", "ozone", "no2", "pm1", "pm4", "pm10",
   "ch2o", "light", "sound", "h2s", "no", "so2", "nh3", "oxygen"]

/-- One raw sample returned by the data-fetch endpoint: a flat mapping
from sensor-field name to a number, plus an optional integer
timestamp. -/
structure Sample where
  fields : List (String × ℚ) := []
  timestamp : Option Int := none
deriving DecidableEq, Repr

/-- Value of a named field in a sample, substituting 0 when the sample
is missing the field. -/
def Sample.get (s : Sample) (f : String) : ℚ :=
  (s.fields.lookup f).getD 0

/-- Modelled from the spec: one device metadata entry as returned by the
device-list endpoint (`uhooapi.device.Device.__init__` payload); every
key may be absent. -/
structure DevicePayload where
  deviceName : Option String := none
  macAddress : Option String := none
  serialNumber : Option String := none
  floorNumber : Option Int := none
  roomName : Option String := none
  timezone : Option String := none
  utcOffset : Option String := none
  ssid : Option String := none
deriving DecidableEq, Repr

/-- Modelled from the spec: the in-memory device record
(`uhooapi.device.Device`): static metadata fields, a fixed set of sensor
readings, and a timestamp defaulting to the sentinel `-1`. -/
structure Device where
  device_name : String
  mac_address : String
  serial_number : String
  floor_number : Int
  room_name : String
  timezone : String
  utc_offset : String
  ssid : String
  sensors : List (String × ℚ)
  timestamp : Int
deriving DecidableEq, Repr

/-- All sensor fields initialised to 0. -/
def initSensors : List (String × ℚ) :=
  SENSOR_FIELDS.map (fun f => (f, 0))

/-- Modelled from the spec: constructing a device record from a metadata
payload (`Device(data)`), each absent key falling back to its type
default; sensor readings start at 0 and the timestamp at `-1`. -/
def Device.ofPayload (p : DevicePayload) : Device :=
  { device_name := p.deviceName.getD ""
  , mac_address := p.macAddress.getD ""
  , serial_number := p.serialNumber.getD ""
  , floor_number := p.floorNumber.getD 0
  , room_name := p.roomName.getD ""
  , timezone := p.timezone.getD ""
  , utc_offset := p.utcOffset.getD ""
  , ssid := p.ssid.getD ""
  , sensors := initSensors
  , timestamp := -1 }

/-- Modelled from the spec: `Device.update_device` overwrites every
metadata field wholesale from the payload, resetting absent keys to
their type defaults (the behaviour asserted by
`test_update_device_partial`); sensor readings and the timestamp are
untouched. -/
def Device.update_device (d : Device) (p : DevicePayload) : Device :=
  { d with
    device_name := p.deviceName.getD ""
  , mac_address := p.macAddress.getD ""
  , serial_number := p.serialNumber.getD ""
  , floor_number := p.floorNumber.getD 0
  , room_name := p.roomName.getD ""
  , timezone := p.timezone.getD ""
  , utc_offset := p.utcOffset.getD ""
  , ssid := p.ssid.getD "" }

/-- Modelled from the spec (§4.3): `Device.update_data` averages every
known sensor field across the batch (a sample missing the field
contributes 0 and still counts in the denominator), rounds each mean to
one decimal with round-half-to-even, and takes the timestamp of the last
sample in the batch when present; an empty batch leaves the record
unchanged. -/
def Device.update_data (d : Device) (batch : List Sample) : Device :=
  match batch with
  | [] => d
  | b :: bs =>
    { d with
      sensors :=
        SENSOR_FIELDS.map
          (fun f => (f, round1 (mean ((b :: bs).map (fun s => s.get f)))))
    , timestamp :=
        (((b :: bs).getLast?).bind Sample.timestamp).getD d.timestamp }

/-- Current reading of a named sensor field of a device record. -/
def Device.sensor (d : Device) (f : String) : ℚ :=
  (d.sensors.lookup f).getD 0

/-- Modelled from the spec (§7): the error taxonomy of
`uhooapi.errors` for network-backed calls. -/
inductive ApiError where
  | unauthorized (detail : String)
  | forbidden (detail : String)
  | requestError (detail : String)
deriving DecidableEq, Repr

/-- The two error kinds the session recovers from by re-login. -/
def ApiError.isAuth : ApiError → Bool
  | .unauthorized _ => true
  | .forbidden _ => true
  | .requestError _ => false

/-- A parsed successful response body: decoded JSON (abstracted to its
textual payload) or the raw text body. -/
inductive RespBody where
  | json (v : String)
  | text (v : String)
deriving DecidableEq, Repr

/-- The observable outcome of the underlying HTTP exchange: status,
declared content type, the JSON decode result (`none` when body parsing
fails), and the raw text body. -/
structure HttpResponse where
  status : Nat
  isJson : Bool
  jsonParse : Option String
  textBody : String
deriving DecidableEq, Repr

/-- Either an HTTP response was received or the transport itself failed
(connection reset, timeout, malformed response) during send. -/
inductive TransportResult where
  | response (r : HttpResponse)
  | failure (msg : String)
deriving DecidableEq, Repr

/-- HTTP statuses treated as client/server errors (what
`raise_for_status` triggers on). -/
def isErrorStatus (s : Nat) : Bool :=
  400 ≤ s

/-- Modelled from the spec (§4.1): `API._request` normalises one HTTP
exchange — 401 becomes Unauthorized, 403 Forbidden, any other error
status or transport/parsing failure a generic Request error; a 2xx
response yields its decoded JSON when the content type is JSON and the
raw text otherwise. -/
def API.request (r : TransportResult) : Except ApiError RespBody :=
  match r with
  | .failure msg =>
    .error (.requestError ("Error requesting data: " ++ msg))
  | .response resp =>
    if isErrorStatus resp.status then
      if resp.status = 401 then .error (.unauthorized resp.textBody)
      else if resp.status = 403 then .error (.forbidden resp.textBody)
      else
        .error (.requestError ("Error requesting data: status "
          ++ toString resp.status))
    else
      if resp.isJson then
        match resp.jsonParse with
        | some v => .ok (.json v)
        | none => .error (.requestError "Error requesting data: body parsing failed")
      else .ok (.text resp.textBody)

/-- Whether a request outcome is an Unauthorized error. -/
def isUnauthorizedResult : Except ApiError RespBody → Bool
  | .error (.unauthorized _) => true
  | _ => false

/-- Whether a request outcome is a Forbidden error. -/
def isForbiddenResult : Except ApiError RespBody → Bool
  | .error (.forbidden _) => true
  | _ => false

/-- Whether a request outcome is a generic Request error. -/
def isRequestErrorResult : Except ApiError RespBody → Bool
  | .error (.requestError _) => true
  | _ => false

/-- HTTP status of a transport outcome, when a response was received at
all. -/
def statusOf : TransportResult → Option Nat
  | .response r => some r.status
  | .failure _ => none

/-- The body of a token-exchange response; either token key may be
absent. -/
structure TokenResponse where
  access_token : Option String := none
  refresh_token : Option String := none
deriving DecidableEq, Repr

/-- The recognizable access token of a token-exchange response: present
and non-empty (an empty or absent token, or no response body at all,
yields `none`). -/
def tokenOf (resp : Option TokenResponse) : Option String :=
  match resp with
  | none => none
  | some r =>
    match r.access_token with
    | none => none
    | some t => if t = "" then none else some t

/-- The wrapper object returned by the data-fetch endpoint, holding the
sample batch under its `data` key. -/
structure FetchWrapper where
  data : List Sample
deriving DecidableEq, Repr

/-- Modelled from the spec: errors surfaced by session operations — a
transport-level error, a Lookup error for an unknown serial number, or
the undefined-variable-style failure of the reference implementation
when the data-fetch call returns the absence value. -/
inductive ClientError where
  | api (e : ApiError)
  | lookupError (serial : String)
  | unboundLocal
deriving DecidableEq, Repr

/-- Modelled from the spec (§3): the session/client state
(`uhooapi.client.Client`): the immutable API key, the mutable token
pair, the transport helper's bearer-token slot, the devices mapping
(insertion-ordered association list keyed by serial number), and the
polling configuration. -/
structure Client where
  api_key : String
  access_token : Option String := none
  refresh_token : Option String := none
  bearer_token : Option String := none
  devices : List (String × Device) := []
  mode : String := "minute"
  limit : Nat := 5
deriving DecidableEq, Repr

/-- Modelled from the spec (§4.2): `Client.login` applied to the
token-exchange response body: a recognizable access token is stored
(together with the refresh token) and propagated into the transport
helper's bearer-token slot; otherwise both stored tokens and the bearer
slot are cleared, reverting the client to anonymous. -/
def Client.login (c : Client) (resp : Option TokenResponse) : Client :=
  match tokenOf resp with
  | some t =>
    { c with
      access_token := some t
    , refresh_token := resp.bind TokenResponse.refresh_token
    , bearer_token := some t }
  | none =>
    { c with access_token := none, refresh_token := none, bearer_token := none }

/-- Serial number of a metadata entry (empty string when absent). -/
def serialOf (p : DevicePayload) : String :=
  p.serialNumber.getD ""

/-- One step of device-collection building: insert a metadata entry
keyed by its serial number unless that serial number is already
present (first occurrence wins). -/
def insertDevice (acc : List (String × Device)) (p : DevicePayload) :
    List (String × Device) :=
  if (acc.lookup (serialOf p)).isSome then acc
  else acc ++ [(serialOf p, Device.ofPayload p)]

/-- Modelled from the spec (§4.2): rebuild the devices mapping from
scratch out of a discovery response list, one record per entry, keyed by
serial number, skipping duplicates. -/
def buildDevices (ps : List DevicePayload) : List (String × Device) :=
  ps.foldl insertDevice []

/-- Modelled from the spec (§9): the bounded re-login retry loop shared
by the network-backed session operations, run against the stream of
outcomes the endpoint produces for successive attempts.  Returns the
final outcome together with the number of endpoint calls and the number
of re-logins performed.  A successful call returns at once; an
Unauthorized/Forbidden outcome consumes one unit of retry budget
(re-login, then one repeated call); a generic Request error, or an
auth error with the budget exhausted, propagates unchanged. -/
def runWithRelogin {β : Type} : Nat → List (Except ApiError β) →
    Except ApiError β × Nat × Nat
  | _, [] => (.error (.requestError "no response"), 0, 0)
  | budget, r :: rest =>
    match r with
    | .ok v => (.ok v, 1, 0)
    | .error e =>
      if e.isAuth = true ∧ budget ≠ 0 then
        let res := runWithRelogin (budget - 1) rest
        (res.1, res.2.1 + 1, res.2.2 + 1)
      else (.error e, 1, 0)

/-- Apply a device-list outcome to the session: on success the devices
mapping is rebuilt from scratch (a `None` or empty response yields an
empty mapping); an error propagates. -/
def applySetup (c : Client) :
    Except ApiError (Option (List DevicePayload)) → Except ApiError Client
  | .ok resp => .ok { c with devices := buildDevices (resp.getD []) }
  | .error e => .error e

/-- Modelled from the spec (§4.2): `Client.setup_devices`, run against
the token-exchange response used for any re-login and the stream of
device-list outcomes; returns the resulting session (or the propagated
error) with the endpoint-call and login counts. -/
def Client.setup_devices (c : Client) (tok : Option TokenResponse)
    (stream : List (Except ApiError (Option (List DevicePayload)))) :
    Except ApiError Client × Nat × Nat :=
  let res := runWithRelogin 1 stream
  let c1 := if res.2.2 = 0 then c else c.login tok
  (applySetup c1 res.1, res.2)

/-- Replace the record stored under a serial number. -/
def updateAssoc (l : List (String × Device)) (s : String) (d : Device) :
    List (String × Device) :=
  l.map (fun kv => if kv.1 = s then (s, d) else kv)

/-- Apply a data-fetch outcome to the located device record: a wrapper
updates the record from its sample batch; the absence value (no wrapper
at all) reproduces the reference implementation's
undefined-variable-style failure; an error propagates. -/
def applyData (c : Client) (s : String) (dev : Device) :
    Except ApiError (Option FetchWrapper) → Except ClientError Client
  | .error e => .error (.api e)
  | .ok none => .error .unboundLocal
  | .ok (some w) =>
    .ok { c with devices := updateAssoc c.devices s (dev.update_data w.data) }

/-- Modelled from the spec (§4.2): `Client.get_latest_data` — look the
device record up by serial number (failing with a Lookup error, before
any endpoint call, when unknown), then run the data-fetch endpoint
through the re-login retry loop and apply the outcome to the record. -/
def Client.get_latest_data (c : Client) (s : String)
    (tok : Option TokenResponse)
    (stream : List (Except ApiError (Option FetchWrapper))) :
    Except ClientError Client × Nat × Nat :=
  match c.devices.lookup s with
  | none => (.error (.lookupError s), 0, 0)
  | some dev =>
    let res := runWithRelogin 1 stream
    let c1 := if res.2.2 = 0 then c else c.login tok
    (applyData c1 s dev res.1, res.2)

/-! ### Helper lemmas -/

/-- Left-biased choice on options. -/
def optOr {α : Type} : Option α → Option α → Option α
  | some v, _ => some v
  | none, o => o

theorem optOr_none_right {α : Type} (o : Option α) : optOr o none = o := by
  cases o <;> rfl

theorem optOr_some_left {α : Type} (v : α) (o : Option α) :
    optOr (some v) o = some v := rfl

/-- Looking a key up in a map that tabulates a function over a list of
keys returns the function's value at any listed key. -/
theorem lookup_map_self {α β : Type} [BEq α] [LawfulBEq α]
    (l : List α) (g : α → β) (f : α) (hf : f ∈ l) :
    (l.map (fun x => (x, g x))).lookup f = some (g f) := by
  induction l with
  | nil => cases hf
  | cons x xs ih =>
    simp only [List.map, List.lookup]
    by_cases h : f = x
    · subst h
      simp
    · have hb : (f == x) = false := by
        simp [h]
      rw [hb]
      rcases List.mem_cons.mp hf with h1 | h2
      · exact absurd h1 h
      · exact ih h2

/-- Association-list lookup distributes over append. -/
theorem lookup_append {α β : Type} [BEq α] (l1 l2 : List (α × β)) (a : α) :
    (l1 ++ l2).lookup a = optOr (l1.lookup a) (l2.lookup a) := by
  induction l1 with
  | nil => rfl
  | cons kv l1 ih =>
    rcases kv with ⟨k, v⟩
    simp only [List.cons_append, List.lookup]
    cases hak : a == k
    · simpa using ih
    · rfl

/-- The key invariant of device-collection building: a lookup into the
folded collection is the accumulator's answer when it has one, and
otherwise the record built from the first metadata entry carrying the
requested serial number. -/
theorem foldl_insertDevice_lookup (ps : List DevicePayload)
    (acc : List (String × Device)) (s : String) :
    (ps.foldl insertDevice acc).lookup s
      = optOr (acc.lookup s)
          ((ps.find? (fun p => serialOf p == s)).map Device.ofPayload) := by
  induction ps generalizing acc with
  | nil =>
    simp only [List.foldl, List.find?, Option.map_none]
    exact (optOr_none_right _).symm
  | cons p ps ih =>
    simp only [List.foldl]
    rw [ih]
    by_cases hq : serialOf p = s
    · subst hq
      have hfind :
          ((p :: ps).find? (fun q => serialOf q == serialOf p))
            = some p := by
        simp [List.find?]
      rw [hfind]
      unfold insertDevice
      cases hacc : (acc.lookup (serialOf p)) with
      | some v =>
        simp only [hacc, Option.isSome_some, if_pos]
        rw [optOr_some_left, optOr_some_left]
      | none =>
        simp only [hacc, Option.isSome_none, Bool.false_eq_true, if_false]
        rw [lookup_append, hacc]
        simp only [optOr]
        have hone : ([(serialOf p, Device.ofPayload p)].lookup (serialOf p))
            = some (Device.ofPayload p) := by
          simp [List.lookup]
        rw [hone]
        rfl
    · have hb : (serialOf p == s) = false := by
        simp [hq]
      have hfind : ((p :: ps).find? (fun q => serialOf q == s))
          = ps.find? (fun q => serialOf q == s) := by
        simp [List.find?, hb]
      rw [hfind]
      have hkeep : (insertDevice acc p).lookup s = acc.lookup s := by
        unfold insertDevice
        cases hacc : (acc.lookup (serialOf p)).isSome
        · simp only [hacc, Bool.false_eq_true, if_false]
          rw [lookup_append]
          have hone : ([(serialOf p, Device.ofPayload p)].lookup s) = none := by
            have hb2 : (s == serialOf p) = false := by
              simp only [beq_eq_false_iff_ne, ne_eq]
              exact fun h => hq h.symm
            simp [List.lookup, hb2]
          rw [hone, optOr_none_right]
        · simp [hacc]
      rw [hkeep]

/-- With no retry budget left, the loop performs at most one endpoint
call and no login. -/
theorem runWithRelogin_zero_bound {β : Type}
    (stream : List (Except ApiError β)) :
    (runWithRelogin (β := β) 0 stream).2.1 ≤ 1
      ∧ (runWithRelogin (β := β) 0 stream).2.2 = 0 := by
  cases stream with
  | nil => exact ⟨Nat.zero_le _, rfl⟩
  | cons r rest =>
    cases r with
    | ok v => exact ⟨Nat.le_refl _, rfl⟩
    | error e => simp [runWithRelogin]

/-- With one unit of retry budget, the loop performs at most two
endpoint calls and at most one login. -/
theorem runWithRelogin_one_bound {β : Type}
    (stream : List (Except ApiError β)) :
    (runWithRelogin (β := β) 1 stream).2.1 ≤ 2
      ∧ (runWithRelogin (β := β) 1 stream).2.2 ≤ 1 := by
  cases stream with
  | nil => exact ⟨Nat.zero_le _, Nat.zero_le _⟩
  | cons r rest =>
    cases r with
    | ok v =>
      simp only [runWithRelogin]
      omega
    | error e =>
      cases he : e.isAuth with
      | false => simp [runWithRelogin, he]
      | true =>
        have hz := runWithRelogin_zero_bound (β := β) rest
        simp only [runWithRelogin, he, ne_eq, one_ne_zero, not_false_eq_true,
          and_true, if_true, true_and]
        simp only [Nat.sub_self] at *
        omega

/-! ### Concrete fixtures for witnesses -/

/-- Sample with temperature 20 at timestamp 1000 (spec §8 scenario). -/
def sampleT1 : Sample := { fields := [("temperature", 20)], timestamp := some 1000 }

/-- Sample with temperature 22 at timestamp 2000 (spec §8 scenario). -/
def sampleT2 : Sample := { fields := [("temperature", 22)], timestamp := some 2000 }

/-- Sample with temperature 24 at timestamp 3000 (spec §8 scenario). -/
def sampleT3 : Sample := { fields := [("temperature", 24)], timestamp := some 3000 }

/-- A device record built from a concrete discovery entry. -/
def deviceA : Device :=
  Device.ofPayload { deviceName := some "Living Room", serialNumber := some "UHOO12345" }

/-- A session holding one device and stale tokens. -/
def clientA : Client :=
  { api_key := "test-api-key"
  , access_token := some "old-token"
  , refresh_token := some "old-refresh"
  , bearer_token := some "old-token"
  , devices := [("UHOO12345", deviceA)] }

/-- A concrete token-exchange response used for re-logins. -/
def tokA : Option TokenResponse :=
  some { access_token := some "T", refresh_token := some "R" }

/-! ### Claims -/

/-- C1: applying the sensor-data update to a device record with a
non-empty sample batch sets each known sensor field to the arithmetic
mean of that field's value across all samples (a sample missing the
field contributes 0 and still counts in the denominator), rounded to one
decimal place with round-half-to-even semantics, and sets the record's
timestamp to the timestamp of the last sample in the batch as
received. -/
theorem c1_update_data_averages (d : Device) (b : Sample) (bs : List Sample)
    (f : String) (last : Sample) (t : Int)
    (hf : f ∈ SENSOR_FIELDS)
    (hlast : (b :: bs).getLast? = some last)
    (ht : last.timestamp = some t) :
    (d.update_data (b :: bs)).sensor f
        = round1 (mean ((b :: bs).map (fun s => s.get f)))
      ∧ (d.update_data (b :: bs)).timestamp = t := by
  constructor
  · simp only [Device.update_data, Device.sensor]
    rw [lookup_map_self SENSOR_FIELDS
      (fun f => round1 (mean ((b :: bs).map (fun s => s.get f)))) f hf]
    rfl
  · simp only [Device.update_data]
    rw [hlast]
    simp [ht]

/-- Witness for C1 at the spec §8 scenario: three samples with
temperatures 20, 22, 24 and timestamps 1000, 2000, 3000 average to 22
with final timestamp 3000. -/
theorem c1_update_data_averages_witness :
    "temperature" ∈ SENSOR_FIELDS
    ∧ (sampleT1 :: [sampleT2, sampleT3]).getLast? = some sampleT3
    ∧ sampleT3.timestamp = some 3000
    ∧ ((Device.ofPayload {}).update_data (sampleT1 :: [sampleT2, sampleT3])).sensor "temperature"
        = round1 (mean ((sampleT1 :: [sampleT2, sampleT3]).map (fun s => s.get "temperature")))
    ∧ ((Device.ofPayload {}).update_data (sampleT1 :: [sampleT2, sampleT3])).timestamp = 3000
    ∧ round1 (mean ((sampleT1 :: [sampleT2, sampleT3]).map (fun s => s.get "temperature"))) = 22 := by
  refine ⟨by decide, by decide, by decide, ?_, ?_, by decide⟩
  · exact (c1_update_data_averages (Device.ofPayload {}) sampleT1 [sampleT2, sampleT3]
      "temperature" sampleT3 3000 (by decide) (by decide) (by decide)).1
  · exact (c1_update_data_averages (Device.ofPayload {}) sampleT1 [sampleT2, sampleT3]
      "temperature" sampleT3 3000 (by decide) (by decide) (by decide)).2

/-- C3: applying the sensor-data update with an empty sample batch
leaves the device record — every sensor field and the timestamp —
entirely unchanged. -/
theorem c3_update_data_empty_batch (d : Device) :
    d.update_data [] = d := rfl

/-- C8: the metadata update overwrites every metadata field wholesale:
each field becomes the payload's value when the key is present and
its type default (empty string, zero for the floor number) when the key
is absent, never preserving a prior value. -/
theorem c8_update_device_wholesale (d : Device) (p : DevicePayload) :
    (d.update_device p).device_name = p.deviceName.getD ""
    ∧ (d.update_device p).mac_address = p.macAddress.getD ""
    ∧ (d.update_device p).serial_number = p.serialNumber.getD ""
    ∧ (d.update_device p).floor_number = p.floorNumber.getD 0
    ∧ (d.update_device p).room_name = p.roomName.getD ""
    ∧ (d.update_device p).timezone = p.timezone.getD ""
    ∧ (d.update_device p).utc_offset = p.utcOffset.getD ""
    ∧ (d.update_device p).ssid = p.ssid.getD "" :=
  ⟨rfl, rfl, rfl, rfl, rfl, rfl, rfl, rfl⟩

/-- C9 counterexample (the inputs of `test_update_device_partial`): a
record created with serial number `"ORIG123"` loses it after a metadata
update whose payload omits the key — the serial number is not immutable
under updates. -/
theorem c9_counterexample :
    ((Device.ofPayload { deviceName := some "Original", serialNumber := some "ORIG123" }).update_device
        { deviceName := some "Updated" }).serial_number
      ≠ (Device.ofPayload { deviceName := some "Original", serialNumber := some "ORIG123" }).serial_number := by
  decide

/-- C9 amended: the serial number survives every sensor-data update
unchanged, but a metadata update overwrites it with the payload's
`serialNumber` value — empty string when the key is absent — so it is
not immutable after creation. -/
theorem c9_serial_number_amended (d : Device) (batch : List Sample)
    (p : DevicePayload) :
    (d.update_data batch).serial_number = d.serial_number
    ∧ (d.update_device p).serial_number = p.serialNumber.getD "" := by
  constructor
  · cases batch with
    | nil => rfl
    | cons b bs => rfl
  · rfl

/-- C4: login on a response carrying an access token stores the access
and refresh tokens and propagates the access token into the transport
helper's bearer-token slot; on a response with no recognizable token
(empty or absent) it clears both stored tokens and the bearer slot,
reverting the client to the anonymous state. -/
theorem c4_login_token_handling (c : Client) (r : TokenResponse) (t : String)
    (resp : Option TokenResponse)
    (ht : r.access_token = some t) (hne : t ≠ "")
    (hno : tokenOf resp = none) :
    ((c.login (some r)).access_token = some t
      ∧ (c.login (some r)).refresh_token = r.refresh_token
      ∧ (c.login (some r)).bearer_token = some t)
    ∧ ((c.login resp).access_token = none
      ∧ (c.login resp).refresh_token = none
      ∧ (c.login resp).bearer_token = none) := by
  have h1 : tokenOf (some r) = some t := by
    simp [tokenOf, ht, hne]
  constructor
  · simp [Client.login, h1, Option.bind]
  · simp [Client.login, hno]

/-- Witness for C4: logging `clientA` in with
`{access_token := "T", refresh_token := "R"}` stores and propagates
`"T"`, while a tokenless response clears everything. -/
theorem c4_login_token_handling_witness :
    ({ access_token := some "T", refresh_token := some "R" } : TokenResponse).access_token = some "T"
    ∧ ("T" : String) ≠ ""
    ∧ tokenOf (some { access_token := some "", refresh_token := some "R2" }) = none
    ∧ ((clientA.login (some { access_token := some "T", refresh_token := some "R" })).access_token = some "T"
      ∧ (clientA.login (some { access_token := some "T", refresh_token := some "R" })).refresh_token
          = ({ access_token := some "T", refresh_token := some "R" } : TokenResponse).refresh_token
      ∧ (clientA.login (some { access_token := some "T", refresh_token := some "R" })).bearer_token = some "T")
    ∧ ((clientA.login (some { access_token := some "", refresh_token := some "R2" })).access_token = none
      ∧ (clientA.login (some { access_token := some "", refresh_token := some "R2" })).refresh_token = none
      ∧ (clientA.login (some { access_token := some "", refresh_token := some "R2" })).bearer_token = none) := by
  refine ⟨by decide, by decide, by decide, ?_⟩
  exact c4_login_token_handling clientA
    { access_token := some "T", refresh_token := some "R" } "T"
    (some { access_token := some "", refresh_token := some "R2" })
    (by decide) (by decide) (by decide)

/-- C5: device discovery keys the devices mapping by serial number and,
when entries share a serial number, retains exactly the first
occurrence's data: a lookup into the built mapping answers with the
record built from the first metadata entry carrying that serial number,
so every later duplicate is silently dropped. -/
theorem c5_first_serial_wins (ps : List DevicePayload) (s : String) :
    (buildDevices ps).lookup s
      = (ps.find? (fun p => serialOf p == s)).map Device.ofPayload := by
  have h := foldl_insertDevice_lookup ps [] s
  simpa [buildDevices, optOr, List.lookup] using h

/-- C6: requesting the latest data for a serial number absent from the
devices mapping fails with a Lookup error, performing zero endpoint
calls and zero logins — the lookup failure precedes any network
side effect. -/
theorem c6_unknown_serial_lookup_error (c : Client) (s : String)
    (tok : Option TokenResponse)
    (stream : List (Except ApiError (Option FetchWrapper)))
    (h : c.devices.lookup s = none) :
    c.get_latest_data s tok stream
      = (Except.error (ClientError.lookupError s), 0, 0) := by
  simp [Client.get_latest_data, h]

/-- Witness for C6: `clientA` knows no device `"NONEXISTENT"`, so the
data refresh fails with a Lookup error without any endpoint call. -/
theorem c6_unknown_serial_lookup_error_witness :
    clientA.devices.lookup "NONEXISTENT" = none
    ∧ clientA.get_latest_data "NONEXISTENT" tokA [Except.ok none]
        = (Except.error (ClientError.lookupError "NONEXISTENT"), 0, 0) :=
  ⟨by decide,
   c6_unknown_serial_lookup_error clientA "NONEXISTENT" tokA [Except.ok none] (by decide)⟩

/-- C10: when the data-fetch call returns the absence value (no wrapping
object, as opposed to a wrapper with an empty sample list), the
reference implementation's data refresh fails with the undefined-variable
style error after its single endpoint call, instead of completing
normally or updating the device record. -/
theorem c10_none_response_undefined (c : Client) (s : String) (dev : Device)
    (tok : Option TokenResponse)
    (h : c.devices.lookup s = some dev) :
    (c.get_latest_data s tok [Except.ok none]).1
        = Except.error ClientError.unboundLocal
    ∧ (c.get_latest_data s tok [Except.ok none]).2 = (1, 0) := by
  simp [Client.get_latest_data, h, runWithRelogin, applyData]

/-- Witness for C10: the absence value from the fetch endpoint makes the
refresh of `clientA`'s known device fail with the undefined-variable
style error. -/
theorem c10_none_response_undefined_witness :
    clientA.devices.lookup "UHOO12345" = some deviceA
    ∧ (clientA.get_latest_data "UHOO12345" tokA [Except.ok none]).1
        = Except.error ClientError.unboundLocal
    ∧ (clientA.get_latest_data "UHOO12345" tokA [Except.ok none]).2 = (1, 0) := by
  refine ⟨by decide, ?_, ?_⟩
  · exact (c10_none_response_undefined clientA "UHOO12345" deviceA tokA (by decide)).1
  · exact (c10_none_response_undefined clientA "UHOO12345" deviceA tokA (by decide)).2

/-- C2: for both network-backed operations (device discovery and
per-device data refresh), an Unauthorized or Forbidden first outcome
triggers exactly one re-login and exactly one repeated endpoint call
(two calls, one login) with the second outcome — success or any error —
decisive and propagated unchanged; a generic Request error at the first
call propagates at once with one call and no login; and on any outcome
stream at most two endpoint calls and at most one login happen per
invocation. -/
theorem c2_retry_policy
    (c : Client) (tok : Option TokenResponse) (s : String) (dev : Device)
    (e e2 e3 : ApiError)
    (r : Except ApiError (Option (List DevicePayload)))
    (r2 : Except ApiError (Option FetchWrapper))
    (stream1 : List (Except ApiError (Option (List DevicePayload))))
    (stream2 : List (Except ApiError (Option FetchWrapper)))
    (hAuth : e.isAuth = true) (hNon : e2.isAuth = false)
    (hdev : c.devices.lookup s = some dev) :
    (c.setup_devices tok [Except.error e, r]).2 = (2, 1)
    ∧ (c.setup_devices tok [Except.error e, Except.error e3]).1 = Except.error e3
    ∧ (c.setup_devices tok [Except.error e2]).1 = Except.error e2
    ∧ (c.setup_devices tok [Except.error e2]).2 = (1, 0)
    ∧ (c.get_latest_data s tok [Except.error e, r2]).2 = (2, 1)
    ∧ (c.get_latest_data s tok [Except.error e, Except.error e3]).1
        = Except.error (ClientError.api e3)
    ∧ (c.get_latest_data s tok [Except.error e2]).1 = Except.error (ClientError.api e2)
    ∧ (c.get_latest_data s tok [Except.error e2]).2 = (1, 0)
    ∧ (c.setup_devices tok stream1).2.1 ≤ 2
    ∧ (c.setup_devices tok stream1).2.2 ≤ 1
    ∧ (c.get_latest_data s tok stream2).2.1 ≤ 2
    ∧ (c.get_latest_data s tok stream2).2.2 ≤ 1 := by
  refine ⟨?_, ?_, ?_, ?_, ?_, ?_, ?_, ?_, ?_, ?_, ?_, ?_⟩
  · cases r with
    | ok v => simp [Client.setup_devices, runWithRelogin, hAuth]
    | error e4 => simp [Client.setup_devices, runWithRelogin, hAuth]
  · simp [Client.setup_devices, runWithRelogin, hAuth, applySetup]
  · simp [Client.setup_devices, runWithRelogin, hNon, applySetup]
  · simp [Client.setup_devices, runWithRelogin, hNon]
  · cases r2 with
    | ok v => simp [Client.get_latest_data, hdev, runWithRelogin, hAuth]
    | error e4 => simp [Client.get_latest_data, hdev, runWithRelogin, hAuth]
  · simp [Client.get_latest_data, hdev, runWithRelogin, hAuth, applyData]
  · simp [Client.get_latest_data, hdev, runWithRelogin, hNon, applyData]
  · simp [Client.get_latest_data, hdev, runWithRelogin, hNon]
  · simpa [Client.setup_devices] using (runWithRelogin_one_bound stream1).1
  · simpa [Client.setup_devices] using (runWithRelogin_one_bound stream1).2
  · simpa [Client.get_latest_data, hdev] using (runWithRelogin_one_bound stream2).1
  · simpa [Client.get_latest_data, hdev] using (runWithRelogin_one_bound stream2).2

/-- Witness for C2 at concrete inputs: an Unauthorized first outcome
against `clientA` leads to exactly one re-login and two endpoint calls
for both operations, while a first-call Request error propagates with a
single call and no login. -/
theorem c2_retry_policy_witness :
    (ApiError.unauthorized "expired").isAuth = true
    ∧ (ApiError.requestError "boom").isAuth = false
    ∧ clientA.devices.lookup "UHOO12345" = some deviceA
    ∧ (clientA.setup_devices tokA
        [Except.error (ApiError.unauthorized "expired"), Except.ok (some [])]).2 = (2, 1)
    ∧ (clientA.setup_devices tokA
        [Except.error (ApiError.unauthorized "expired"),
         Except.error (ApiError.forbidden "denied")]).1
        = Except.error (ApiError.forbidden "denied")
    ∧ (clientA.setup_devices tokA [Except.error (ApiError.requestError "boom")]).1
        = Except.error (ApiError.requestError "boom")
    ∧ (clientA.setup_devices tokA [Except.error (ApiError.requestError "boom")]).2 = (1, 0)
    ∧ (clientA.get_latest_data "UHOO12345" tokA
        [Except.error (ApiError.unauthorized "expired"), Except.ok (some { data := [] })]).2 = (2, 1)
    ∧ (clientA.get_latest_data "UHOO12345" tokA
        [Except.error (ApiError.unauthorized "expired"),
         Except.error (ApiError.forbidden "denied")]).1
        = Except.error (ClientError.api (ApiError.forbidden "denied"))
    ∧ (clientA.get_latest_data "UHOO12345" tokA
        [Except.error (ApiError.requestError "boom")]).1
        = Except.error (ClientError.api (ApiError.requestError "boom"))
    ∧ (clientA.get_latest_data "UHOO12345" tokA
        [Except.error (ApiError.requestError "boom")]).2 = (1, 0)
    ∧ (clientA.setup_devices tokA [Except.ok (some [])]).2.1 ≤ 2
    ∧ (clientA.setup_devices tokA [Except.ok (some [])]).2.2 ≤ 1
    ∧ (clientA.get_latest_data "UHOO12345" tokA [Except.ok (some { data := [] })]).2.1 ≤ 2
    ∧ (clientA.get_latest_data "UHOO12345" tokA [Except.ok (some { data := [] })]).2.2 ≤ 1 := by
  have h := c2_retry_policy clientA tokA "UHOO12345" deviceA
    (ApiError.unauthorized "expired") (ApiError.requestError "boom")
    (ApiError.forbidden "denied")
    (Except.ok (some [])) (Except.ok (some { data := [] }))
    [Except.ok (some [])] [Except.ok (some { data := [] })]
    (by decide) (by decide) (by decide)
  exact ⟨by decide, by decide, by decide,
    h.1, h.2.1, h.2.2.1, h.2.2.2.1, h.2.2.2.2.1, h.2.2.2.2.2.1,
    h.2.2.2.2.2.2.1, h.2.2.2.2.2.2.2.1, h.2.2.2.2.2.2.2.2.1,
    h.2.2.2.2.2.2.2.2.2.1, h.2.2.2.2.2.2.2.2.2.2.1,
    h.2.2.2.2.2.2.2.2.2.2.2⟩

/-- C7: the transport helper's request fails with an Unauthorized error
exactly when an HTTP response with status 401 was received, with a
Forbidden error exactly when the status was 403, and with a generic
Request error exactly when either another error status was received, the
transport itself failed during send, or a 2xx JSON body failed to
parse. -/
theorem c7_error_taxonomy (r : TransportResult) :
    (isUnauthorizedResult (API.request r) = true ↔ statusOf r = some 401)
    ∧ (isForbiddenResult (API.request r) = true ↔ statusOf r = some 403)
    ∧ (isRequestErrorResult (API.request r) = true ↔
        (match r with
         | .failure _ => True
         | .response resp =>
             (isErrorStatus resp.status = true ∧ resp.status ≠ 401 ∧ resp.status ≠ 403)
             ∨ (isErrorStatus resp.status = false ∧ resp.isJson = true
                 ∧ resp.jsonParse = none))) := by
  cases r with
  | failure msg =>
    simp [API.request, isUnauthorizedResult, isForbiddenResult,
      isRequestErrorResult, statusOf]
  | response resp =>
    rcases resp with ⟨st, isJson, jp, tb⟩
    by_cases herr : isErrorStatus st = true
    · by_cases h401 : st = 401
      · subst h401
        simp [API.request, isUnauthorizedResult, isForbiddenResult,
          isRequestErrorResult, statusOf, herr]
      · by_cases h403 : st = 403
        · subst h403
          simp [API.request, isUnauthorizedResult, isForbiddenResult,
            isRequestErrorResult, statusOf, herr, h401]
        · simp [API.request, isUnauthorizedResult, isForbiddenResult,
            isRequestErrorResult, statusOf, herr, h401, h403]
    · have h401 : st ≠ 401 := by
        intro hst
        exact herr (by simp [hst, isErrorStatus])
      have h403 : st ≠ 403 := by
        intro hst
        exact herr (by simp [hst, isErrorStatus])
      cases isJson with
      | false =>
        simp [API.request, isUnauthorizedResult, isForbiddenResult,
          isRequestErrorResult, statusOf, herr, h401, h403]
      | true =>
        cases jp with
        | none =>
          simp [API.request, isUnauthorizedResult, isForbiddenResult,
            isRequestErrorResult, statusOf, herr, h401, h403]
        | some v =>
          simp [API.request, isUnauthorizedResult, isForbiddenResult,
            isRequestErrorResult, statusOf, herr, h401, h403]

end Uhoo

end
